import Mathlib

/-!
# Verification of `term_bg.py`

A shallow embedding of `term_bg.py`, a Python module that decides whether
the controlling terminal has a dark or light background, together with
theorems about its behaviour.

Modelling conventions:
* Python strings are Lean `String`s (or `List Char` for the byte-level
  terminal response, where the parser recurses character by character).
* `os.environ.get(name, None)` is modelled by an `Env` record holding an
  `Option String` for each of the three variables the module reads.
* Python truthiness of a string (`if s:`) is `s ≠ ""` for a present value
  and false for an absent one.
* Booleans returned by the heuristics mean "the background is dark", as in
  the source; `verdictOf` translates them into the Dark/Light verdict the
  specification speaks about.
-/

/-- The two-valued background classification of the specification. -/
inductive BackgroundVerdict where
  | Dark : BackgroundVerdict
  | Light : BackgroundVerdict
deriving DecidableEq, Repr

/-- The source returns booleans meaning "is the background dark";
`true` denotes Dark, `false` denotes Light. -/
def verdictOf (isDark : Bool) : BackgroundVerdict :=
  if isDark then BackgroundVerdict.Dark else BackgroundVerdict.Light

/-- The process environment as the module sees it: the values (if set) of
the three variables `DARK_BG`, `COLORFGBG` and `TERM` read via
`environ.get(name, None)`. -/
structure Env where
  dark_bg : Option String
  colorfgbg : Option String
  term : Option String

/-- Embedding of `get_default_bg` (term_bg.py lines 39-54): reads `TERM`;
if it is set and truthy and starts with "xterm" or "eterm" or equals
"dtterm", returns `false` (light), otherwise `true` (dark). -/
def get_default_bg (env : Env) : Bool :=
  match env.term with
  | some term =>
    if term ≠ "" then
      if term.startsWith "xterm" || term.startsWith "eterm" || term == "dtterm" then
        false
      else
        true
    else
      true
  | none => true

set_option linter.unusedVariables false in
/-- Embedding of `is_dark_rgb` (term_bg.py lines 57-63): the source computes
`(16 * 5 + 16 * g + 16 * b) < 117963`; note the red channel `r` is a
parameter but does not occur in the expression (the literal `5` appears
where `r` would). -/
def is_dark_rgb (r g b : Nat) : Bool :=
  decide (16 * 5 + 16 * g + 16 * b < 117963)

/-- Embedding of `is_dark_color_fg_bg` (term_bg.py lines 66-82): consult
`DARK_BG` first (`dark_bg != "0"` when set), else `COLORFGBG` — a truthy
value is compared against the four recognized patterns, a falsy or absent
value returns `True`, and an unrecognized truthy value falls through to
`return None`. -/
def is_dark_color_fg_bg (env : Env) : Option Bool :=
  match env.dark_bg with
  | some dark_bg => some (decide ¬(dark_bg = "0"))
  | none =>
    match env.colorfgbg with
    | some color_fg_bg =>
      if color_fg_bg ≠ "" then
        if color_fg_bg = "15;0" ∨ color_fg_bg = "15;default;0" then
          some true
        else if color_fg_bg = "0;15" ∨ color_fg_bg = "0;default;15" then
          some false
        else
          none
      else
        some true
    | none => some true

/-- Embedding of `is_dark_background` (term_bg.py lines 85-90): the
environment heuristic, falling back to the TERM-name default when it
yields no verdict.  It calls only `is_dark_color_fg_bg` and
`get_default_bg`; `xterm_compatible_fg_bg` does not occur in it. -/
def is_dark_background (env : Env) : Bool :=
  match is_dark_color_fg_bg env with
  | some dark_bg => dark_bg
  | none => get_default_bg env

/-- C1: the red channel is ignored by `is_dark_rgb`.  At `(r, g, b) =
(65535, 0, 0)` the claimed weighted sum `16*r + 16*g + 16*b = 1048560`
is at least the threshold `117963`, so the claim demands Light, but the
code computes `16*5 + 0 + 0 = 80 < 117963` and returns Dark. -/
theorem C1_red_channel_ignored :
    verdictOf (is_dark_rgb 65535 0 0) = BackgroundVerdict.Dark ∧
      117963 ≤ 16 * 65535 + 16 * 0 + 16 * 0 := by
  decide

/-- C4 counterexample: with `DARK_BG` unset and `COLORFGBG` set to the
empty string (a value other than the four recognized patterns), the claim
demands no verdict (`none`), but the code's truthiness test treats the
empty string like an unset variable and returns `some true` (Dark). -/
theorem C4_counterexample :
    ¬ (is_dark_color_fg_bg ⟨none, some "", none⟩ = none) := by
  decide

/-- C4 (amended): with `DARK_BG` unset and `COLORFGBG` set to a
non-empty string other than the four recognized patterns,
`is_dark_color_fg_bg` returns no verdict. -/
theorem C4_unrecognized_nonempty_is_none (env : Env) (s : String)
    (hdark : env.dark_bg = none) (hc : env.colorfgbg = some s)
    (hne : s ≠ "") (h1 : s ≠ "15;0") (h2 : s ≠ "15;default;0")
    (h3 : s ≠ "0;15") (h4 : s ≠ "0;default;15") :
    is_dark_color_fg_bg env = none := by
  simp [is_dark_color_fg_bg, hdark, hc, hne, h1, h2, h3, h4]

/-- C4 witness: a concrete unrecognized non-empty value. -/
theorem C4_unrecognized_nonempty_is_none_witness :
    is_dark_color_fg_bg ⟨none, some "7;3", none⟩ = none :=
  C4_unrecognized_nonempty_is_none ⟨none, some "7;3", none⟩ "7;3" rfl rfl
    (by decide) (by decide) (by decide) (by decide) (by decide)

/-- C5: `is_dark_background` returns the environment heuristic's verdict
whenever it is conclusive, and otherwise returns the TERM-name default
directly; by construction it is a function of the environment alone and
never consults the terminal-query operation. -/
theorem C5_detect_composition (env : Env) :
    (∀ v : Bool, is_dark_color_fg_bg env = some v → is_dark_background env = v) ∧
      (is_dark_color_fg_bg env = none →
        is_dark_background env = get_default_bg env) := by
  cases h : is_dark_color_fg_bg env <;> simp [is_dark_background, h]

/-- C5 witness: with `DARK_BG="1"` the environment heuristic is conclusive
(Dark) and the detector returns it. -/
theorem C5_detect_composition_witness :
    is_dark_background ⟨some "1", none, some "xterm"⟩ = true :=
  (C5_detect_composition ⟨some "1", none, some "xterm"⟩).1 true (by decide)

/-- C7: when `DARK_BG` is set to `v`, `is_dark_color_fg_bg` returns Light
exactly when `v = "0"` and Dark otherwise, whatever the rest of the
environment (in particular `COLORFGBG`) holds. -/
theorem C7_dark_bg_precedence (env : Env) (v : String)
    (h : env.dark_bg = some v) :
    is_dark_color_fg_bg env = some (if v = "0" then false else true) := by
  simp only [is_dark_color_fg_bg, h]
  by_cases hv : v = "0" <;> simp [hv]

/-- C7 witness: `DARK_BG="0"` yields Light even when `COLORFGBG` holds a
Dark pattern, showing `COLORFGBG` is not consulted. -/
theorem C7_dark_bg_precedence_witness :
    is_dark_color_fg_bg ⟨some "0", some "15;0", none⟩ =
      some (if "0" = "0" then false else true) :=
  C7_dark_bg_precedence ⟨some "0", some "15;0", none⟩ "0" rfl

/-- C8: with `DARK_BG` unset, the four recognized `COLORFGBG` patterns
yield Dark (`"15;0"`, `"15;default;0"`) or Light (`"0;15"`,
`"0;default;15"`), and an unset `COLORFGBG` yields Dark as the default. -/
theorem C8_colorfgbg_patterns (env : Env) (h : env.dark_bg = none) :
    ((env.colorfgbg = some "15;0" ∨ env.colorfgbg = some "15;default;0") →
        (is_dark_color_fg_bg env).map verdictOf = some BackgroundVerdict.Dark) ∧
      ((env.colorfgbg = some "0;15" ∨ env.colorfgbg = some "0;default;15") →
        (is_dark_color_fg_bg env).map verdictOf = some BackgroundVerdict.Light) ∧
      (env.colorfgbg = none →
        (is_dark_color_fg_bg env).map verdictOf = some BackgroundVerdict.Dark) := by
  refine ⟨?_, ?_, ?_⟩
  · rintro (hc | hc) <;> simp [is_dark_color_fg_bg, h, hc, verdictOf]
  · rintro (hc | hc) <;> simp [is_dark_color_fg_bg, h, hc, verdictOf]
  · intro hc
    simp [is_dark_color_fg_bg, h, hc, verdictOf]

/-- C8 witness: `DARK_BG` unset and `COLORFGBG="15;0"` yields Dark. -/
theorem C8_colorfgbg_patterns_witness :
    (is_dark_color_fg_bg ⟨none, some "15;0", none⟩).map verdictOf =
      some BackgroundVerdict.Dark :=
  (C8_colorfgbg_patterns ⟨none, some "15;0", none⟩ rfl).1 (Or.inl rfl)

/-- C9: `get_default_bg` yields Light exactly when `TERM` is set to a
value starting with "xterm" or "eterm" or equal to "dtterm"; in every
other case, including `TERM` unset, it yields Dark. -/
theorem C9_term_name_light_iff (env : Env) :
    (verdictOf (get_default_bg env) = BackgroundVerdict.Light ↔
      ∃ t, env.term = some t ∧
        (t.startsWith "xterm" ∨ t.startsWith "eterm" ∨ t = "dtterm")) ∧
      (env.term = none → verdictOf (get_default_bg env) = BackgroundVerdict.Dark) := by
  constructor
  · cases henv : env.term with
    | none => simp [get_default_bg, henv, verdictOf]
    | some t =>
      by_cases ht : t = ""
      · subst ht
        simp [get_default_bg, henv, verdictOf]
        decide
      · by_cases hcond : t.startsWith "xterm" || t.startsWith "eterm" || t == "dtterm"
        · constructor
          · intro _
            refine ⟨t, rfl, ?_⟩
            simpa [Bool.or_eq_true, beq_iff_eq, or_assoc] using hcond
          · intro _
            simp [get_default_bg, henv, ht, hcond, verdictOf]
        · constructor
          · intro hlight
            exfalso
            simp [get_default_bg, henv, ht, hcond, verdictOf] at hlight
          · rintro ⟨t', ht', hc'⟩
            exfalso
            injection ht' with hEq
            subst hEq
            apply hcond
            rcases hc' with hx | hx | hx <;> simp [hx]
  · intro henv
    simp [get_default_bg, henv, verdictOf]

/-! ## The live terminal query (`xterm_compatible_fg_bg`, term_bg.py lines 97-141)

The response parser embeds the fixed regular expression
`\x1b]10;rgb:([0-9a-f]\x7b4\x7d)/.../([0-9a-f]\x7b4\x7d)\x07\x1b]11;rgb:...\x07`
applied with `re.match`, which anchors at the start of the data and
ignores anything after the matched prefix.  The query itself is modelled
as a function from a `QueryWorld` (the facts about the outside world the
code branches on) to its returned value paired with the trace of
terminal-attribute operations it performs, so that the save/restore
discipline can be stated. -/

/-- A captured group of the response: a list of characters. -/
abbrev HexGroup := List Char

/-- One `rgb:HHHH/HHHH/HHHH` triple of captured groups. -/
abbrev HexTriple := HexGroup × HexGroup × HexGroup

/-- The character class `[0-9a-f]` of the response pattern. -/
def isHexDigit (c : Char) : Bool :=
  ('0' ≤ c && c ≤ '9') || ('a' ≤ c && c ≤ 'f')

/-- Matching `([0-9a-f]\x7b4\x7d)`: exactly four hex digits, captured,
with the rest of the input returned. -/
def takeHex4 : List Char → Option (HexGroup × List Char)
  | c1 :: c2 :: c3 :: c4 :: rest =>
    if isHexDigit c1 && isHexDigit c2 && isHexDigit c3 && isHexDigit c4 then
      some ([c1, c2, c3, c4], rest)
    else
      none
  | _ => none

/-- Matching a literal character sequence of the pattern. -/
def dropLit : List Char → List Char → Option (List Char)
  | [], s => some s
  | _ :: _, [] => none
  | c :: cs, d :: ds => if c = d then dropLit cs ds else none

/-- The source's `fg_str`: the OSC 10 introducer `"\x1b]10;"`. -/
def fg_str : List Char := ['\x1b', ']', '1', '0', ';']

/-- The source's `bg_str`: the OSC 11 introducer `"\x1b]11;"`. -/
def bg_str : List Char := ['\x1b', ']', '1', '1', ';']

/-- The literal `"rgb:"` of the response pattern. -/
def rgb_lit : List Char := ['r', 'g', 'b', ':']

/-- Matching `rgb_pat`: three four-hex-digit groups separated by `/` and
terminated by BEL (`\x07`). -/
def parse_rgb_triple (s : List Char) : Option (HexTriple × List Char) :=
  match takeHex4 s with
  | none => none
  | some (g1, s1) =>
    match dropLit ['/'] s1 with
    | none => none
    | some s2 =>
      match takeHex4 s2 with
      | none => none
      | some (g2, s3) =>
        match dropLit ['/'] s3 with
        | none => none
        | some s4 =>
          match takeHex4 s4 with
          | none => none
          | some (g3, s5) =>
            match dropLit ['\x07'] s5 with
            | none => none
            | some s6 => some ((g1, g2, g3), s6)

/-- Embedding of `re.match(fg_bg_pat, data)` (term_bg.py lines 121-124):
the anchored match of `fg_str rgb: rgb_pat bg_str rgb: rgb_pat` against a
prefix of `data`; trailing characters after the second BEL are not
examined. -/
def re_match_fg_bg (data : List Char) : Option (HexTriple × HexTriple) :=
  match dropLit (fg_str ++ rgb_lit) data with
  | none => none
  | some s1 =>
    match parse_rgb_triple s1 with
    | none => none
    | some (fg, s2) =>
      match dropLit (bg_str ++ rgb_lit) s2 with
      | none => none
      | some s3 =>
        match parse_rgb_triple s3 with
        | none => none
        | some (bg, _) => some (fg, bg)

/-- Numeric value of one hex digit (only meaningful on `[0-9a-f]`). -/
def hexDigitVal (c : Char) : Nat :=
  if '0' ≤ c && c ≤ '9' then c.toNat - '0'.toNat else c.toNat - 'a'.toNat + 10

/-- Numeric value of a captured hex group, read most significant first. -/
def hexVal (g : HexGroup) : Nat :=
  g.foldl (fun acc c => 16 * acc + hexDigitVal c) 0

/-- The RGB components denoted by a captured triple, each on the 0-65535
scale the terminal reports with four hex digits. -/
def tripleVal (t : HexTriple) : Nat × Nat × Nat :=
  (hexVal t.1, hexVal t.2.1, hexVal t.2.2)

/-- The terminal-attribute and I/O operations `xterm_compatible_fg_bg`
performs on the two descriptors (0 = stdin, 1 = stdout). -/
inductive TermEvent where
  | saveAttrs : Nat → TermEvent
  | setRaw : Nat → TermEvent
  | writeQuery : TermEvent
  | readData : TermEvent
  | restoreAttrs : Nat → TermEvent
deriving DecidableEq, Repr

/-- The value an execution of `xterm_compatible_fg_bg` produces: the
returned pair (`none` standing for the source's `(None, None)`), or a
propagated exception. -/
inductive QueryOutcome where
  | result : Option (HexTriple × HexTriple) → QueryOutcome
  | raised : QueryOutcome
deriving DecidableEq, Repr

/-- The facts about the outside world that `xterm_compatible_fg_bg`
branches on: whether each standard descriptor is a tty
(`os.isatty(fdi)`, `os.isatty(fdo)`), whether `select.select` reports
input ready, the data `fi.read(48)` yields, and whether an exception is
raised inside the `try` block (modelling any error raised mid-query, at
the point where `tty.setraw` runs). -/
structure QueryWorld where
  isatty_in : Bool
  isatty_out : Bool
  input_ready : Bool
  data : List Char
  raise_mid_query : Bool
deriving Repr

/-- Embedding of `xterm_compatible_fg_bg` (term_bg.py lines 97-141) as a
function from the outside world to the returned value and the trace of
terminal operations, following the source's control flow:
* not a tty on either side: return `(None, None)` at once, no terminal
  operation at all;
* otherwise save both descriptors' attributes, enter the `try` block
  (an injected exception runs the `finally` restore and propagates);
* switch both descriptors to raw mode and write the query;
* if input is ready: read, restore both descriptors explicitly
  (lines 119-120), match the pattern, and whether or not it matches the
  `finally` clause restores both descriptors once more;
* if input is not ready: return `(None, None)` through the `finally`
  clause, which restores both descriptors once. -/
def xterm_compatible_fg_bg (w : QueryWorld) : QueryOutcome × List TermEvent :=
  if w.isatty_in && w.isatty_out then
    let saved := [TermEvent.saveAttrs 0, TermEvent.saveAttrs 1]
    if w.raise_mid_query then
      (QueryOutcome.raised,
        saved ++ [TermEvent.restoreAttrs 0, TermEvent.restoreAttrs 1])
    else
      let tried := saved ++
        [TermEvent.setRaw 0, TermEvent.setRaw 1, TermEvent.writeQuery]
      if w.input_ready then
        let finished := tried ++
          [TermEvent.readData, TermEvent.restoreAttrs 0, TermEvent.restoreAttrs 1,
            TermEvent.restoreAttrs 0, TermEvent.restoreAttrs 1]
        match re_match_fg_bg w.data with
        | some (fg, bg) => (QueryOutcome.result (some (fg, bg)), finished)
        | none => (QueryOutcome.result none, finished)
      else
        (QueryOutcome.result none,
          tried ++ [TermEvent.restoreAttrs 0, TermEvent.restoreAttrs 1])
  else
    (QueryOutcome.result none, [])

/-- Rendering of one `rgb:` triple of the response wire format:
four hex digits, `/`, four hex digits, `/`, four hex digits, BEL. -/
def render_triple (t : HexTriple) : List Char :=
  t.1 ++ '/' :: (t.2.1 ++ '/' :: (t.2.2 ++ ['\x07']))

/-- Rendering of a full well-formed response:
`ESC]10;rgb:HHHH/HHHH/HHHH BEL ESC]11;rgb:HHHH/HHHH/HHHH BEL`. -/
def render_response (fg bg : HexTriple) : List Char :=
  (fg_str ++ rgb_lit) ++ (render_triple fg ++ ((bg_str ++ rgb_lit) ++ render_triple bg))

/-- The foreground triple `ffff/ffff/ffff` of the spec's simulated
response. -/
def sample_fg : HexTriple :=
  (['f', 'f', 'f', 'f'], ['f', 'f', 'f', 'f'], ['f', 'f', 'f', 'f'])

/-- The background triple `0000/0000/0000` of the spec's simulated
response. -/
def sample_bg : HexTriple :=
  (['0', '0', '0', '0'], ['0', '0', '0', '0'], ['0', '0', '0', '0'])

/-- The spec's simulated response
`ESC]10;rgb:ffff/ffff/ffff BEL ESC]11;rgb:0000/0000/0000 BEL`. -/
def sample_response : List Char := render_response sample_fg sample_bg

/-- A captured group as the response grammar constrains it: exactly four
characters, each in the class `[0-9a-f]`. -/
def Hex4 (g : HexGroup) : Prop :=
  g.length = 4 ∧ ∀ c ∈ g, isHexDigit c = true

/-- A list of length four is a four-element literal list. -/
theorem hex4_shape (g : HexGroup) (h : g.length = 4) :
    ∃ c1 c2 c3 c4, g = [c1, c2, c3, c4] := by
  rcases g with _ | ⟨c1, _ | ⟨c2, _ | ⟨c3, _ | ⟨c4, _ | ⟨c5, t⟩⟩⟩⟩⟩
  · simp only [List.length_nil] at h
    omega
  · simp only [List.length_cons, List.length_nil] at h
    omega
  · simp only [List.length_cons, List.length_nil] at h
    omega
  · simp only [List.length_cons, List.length_nil] at h
    omega
  · exact ⟨c1, c2, c3, c4, rfl⟩
  · simp only [List.length_cons] at h
    omega

/-- `takeHex4` consumes exactly four hex digits and returns the rest. -/
theorem takeHex4_append (c1 c2 c3 c4 : Char) (rest : List Char)
    (h1 : isHexDigit c1 = true) (h2 : isHexDigit c2 = true)
    (h3 : isHexDigit c3 = true) (h4 : isHexDigit c4 = true) :
    takeHex4 (c1 :: c2 :: c3 :: c4 :: rest) = some ([c1, c2, c3, c4], rest) := by
  simp [takeHex4, h1, h2, h3, h4]

/-- `dropLit` consumes exactly its literal and returns the rest. -/
theorem dropLit_append (lit rest : List Char) :
    dropLit lit (lit ++ rest) = some rest := by
  induction lit with
  | nil => rfl
  | cons c cs ih => simp [dropLit, ih]

/-- `parse_rgb_triple` consumes exactly one rendered triple and returns
the captured groups and the rest of the input. -/
theorem parse_rgb_triple_append (t : HexTriple) (rest : List Char)
    (h1 : Hex4 t.1) (h2 : Hex4 t.2.1) (h3 : Hex4 t.2.2) :
    parse_rgb_triple (render_triple t ++ rest) = some (t, rest) := by
  obtain ⟨g1, g2, g3⟩ := t
  obtain ⟨hl1, hd1⟩ := h1
  obtain ⟨hl2, hd2⟩ := h2
  obtain ⟨hl3, hd3⟩ := h3
  obtain ⟨a1, a2, a3, a4, rfl⟩ := hex4_shape g1 hl1
  obtain ⟨b1, b2, b3, b4, rfl⟩ := hex4_shape g2 hl2
  obtain ⟨c1, c2, c3, c4, rfl⟩ := hex4_shape g3 hl3
  have ea1 := hd1 a1 (by simp)
  have ea2 := hd1 a2 (by simp)
  have ea3 := hd1 a3 (by simp)
  have ea4 := hd1 a4 (by simp)
  have eb1 := hd2 b1 (by simp)
  have eb2 := hd2 b2 (by simp)
  have eb3 := hd2 b3 (by simp)
  have eb4 := hd2 b4 (by simp)
  have ec1 := hd3 c1 (by simp)
  have ec2 := hd3 c2 (by simp)
  have ec3 := hd3 c3 (by simp)
  have ec4 := hd3 c4 (by simp)
  simp [render_triple, parse_rgb_triple, takeHex4, dropLit,
    ea1, ea2, ea3, ea4, eb1, eb2, eb3, eb4, ec1, ec2, ec3, ec4]

/-- C2 counterexample: on the input-ready path (both descriptors are
ttys, input ready, no exception) the trace restores the input
descriptor's attributes twice — once explicitly after the read and once
more in the cleanup — so they are not restored exactly once. -/
theorem C2_counterexample :
    ¬ ((xterm_compatible_fg_bg ⟨true, true, true, [], false⟩).2.count
        (TermEvent.restoreAttrs 0) = 1) := by
  decide

/-- C2 (amended): whenever both descriptors are ttys (so their
attributes were saved), every exit path restores the attributes of both
descriptors: exactly once on the not-ready path and on an error raised
mid-query, and twice on the path where input was ready (whether the
data parsed or was malformed). -/
theorem C2_restore_on_every_exit (rdy rq : Bool) (data : List Char) :
    ((xterm_compatible_fg_bg ⟨true, true, rdy, data, rq⟩).2.count
        (TermEvent.restoreAttrs 0) =
        if rq = false ∧ rdy = true then 2 else 1) ∧
      ((xterm_compatible_fg_bg ⟨true, true, rdy, data, rq⟩).2.count
        (TermEvent.restoreAttrs 1) =
        if rq = false ∧ rdy = true then 2 else 1) := by
  cases rq with
  | true =>
    constructor <;> simp [xterm_compatible_fg_bg]
  | false =>
    cases rdy with
    | false =>
      constructor <;> simp [xterm_compatible_fg_bg]
    | true =>
      cases hm : re_match_fg_bg data with
      | none =>
        constructor <;> simp [xterm_compatible_fg_bg, hm]
      | some p =>
        obtain ⟨fg, bg⟩ := p
        constructor <;> simp [xterm_compatible_fg_bg, hm]

/-- C3: the well-formed simulated response
`ESC]10;rgb:ffff/ffff/ffff BEL ESC]11;rgb:0000/0000/0000 BEL`, captured
on the ready path, yields a present result whose foreground groups
denote (65535, 65535, 65535) and whose background groups denote
(0, 0, 0) when the four-hex-digit channels are read as numbers. -/
theorem C3_wellformed_response_parses :
    (xterm_compatible_fg_bg ⟨true, true, true, sample_response, false⟩).1 =
        QueryOutcome.result (some (sample_fg, sample_bg)) ∧
      tripleVal sample_fg = (65535, 65535, 65535) ∧
      tripleVal sample_bg = (0, 0, 0) := by
  decide

/-- C6: when either standard descriptor is not a tty, the query returns
the absent result at once and its trace is empty: no attribute save, no
switch to raw mode, no restore. -/
theorem C6_not_a_tty (w : QueryWorld)
    (h : ¬ (w.isatty_in = true ∧ w.isatty_out = true)) :
    xterm_compatible_fg_bg w = (QueryOutcome.result none, []) := by
  obtain ⟨i, o, rdy, data, rq⟩ := w
  simp only [not_and] at h
  cases i <;> cases o <;> simp_all [xterm_compatible_fg_bg]

/-- C6 witness: standard input not a tty. -/
theorem C6_not_a_tty_witness :
    xterm_compatible_fg_bg ⟨false, true, true, [], false⟩ =
      (QueryOutcome.result none, []) :=
  C6_not_a_tty ⟨false, true, true, [], false⟩ (by decide)

/-- C10: the anchored match ignores whatever follows the second BEL: a
well-formed response prefix with arbitrary trailing bytes is accepted and
yields the two captured triples of the prefix. -/
theorem C10_trailing_bytes_ignored (fg bg : HexTriple) (suffix : List Char)
    (hf1 : Hex4 fg.1) (hf2 : Hex4 fg.2.1) (hf3 : Hex4 fg.2.2)
    (hb1 : Hex4 bg.1) (hb2 : Hex4 bg.2.1) (hb3 : Hex4 bg.2.2) :
    re_match_fg_bg (render_response fg bg ++ suffix) = some (fg, bg) := by
  have hsplit : render_response fg bg ++ suffix =
      (fg_str ++ rgb_lit) ++
        (render_triple fg ++ ((bg_str ++ rgb_lit) ++ (render_triple bg ++ suffix))) := by
    simp [render_response, List.append_assoc]
  rw [hsplit]
  simp only [re_match_fg_bg, dropLit_append,
    parse_rgb_triple_append fg _ hf1 hf2 hf3,
    parse_rgb_triple_append bg _ hb1 hb2 hb3]

/-- C10 witness: the sample response followed by two extra bytes is
still accepted with the same captured triples. -/
theorem C10_trailing_bytes_ignored_witness :
    re_match_fg_bg (render_response sample_fg sample_bg ++ ['O', 'K']) =
      some (sample_fg, sample_bg) :=
  C10_trailing_bytes_ignored sample_fg sample_bg ['O', 'K']
    (by constructor <;> decide) (by constructor <;> decide)
    (by constructor <;> decide) (by constructor <;> decide)
    (by constructor <;> decide) (by constructor <;> decide)
